import Mathlib

/-!
Shallow embedding of the real-time chat transport layer of the
sprint-mate frontend (src/hooks/useChat.ts).

The hook's persistent data (React state plus refs) is collected in
`HookState`.  Each callback of the source (the effect body, its cleanup,
the STOMP client's onConnect / onDisconnect / onStompError /
onWebSocketClose handlers, loadHistory's resolution, addMessage for a
live delivery, sendMessage, and the retry-timer callback) becomes one
branch of a step function `hookStep : HookState → ChatEvent →
HookState × List ChatAction`.  Side effects that leave the hook
(issuing the history fetch, activating / deactivating the STOMP client,
subscribing, publishing a frame, scheduling a retry timer) are emitted
as `ChatAction`s rather than performed, so every theorem about "what
the code does" is a statement about the returned state and action list.
All transitions are serialized by the browser event loop, matching the
one-event-at-a-time step function.
-/

namespace SprintMate

/-- ChatMessage record, from src/types.ts lines 128-135. -/
structure ChatMessage where
  id : String
  matchId : String
  senderId : String
  senderName : String
  content : String
  createdAt : String
deriving DecidableEq, Repr

/-- ChatMessageRequest record, from src/types.ts lines 140-143. -/
structure ChatMessageRequest where
  matchId : String
  content : String
deriving DecidableEq, Repr

/-- RECONNECT_DELAY_BASE constant of useChat.ts. -/
def RECONNECT_DELAY_BASE : Nat := 1000

/-- MAX_RECONNECT_DELAY constant of useChat.ts. -/
def MAX_RECONNECT_DELAY : Nat := 30000

/-- JavaScript truthiness test on an optional string: a `string | null`
value fails the check when it is null or the empty string
(the source guards with `!matchId`). -/
def strFalsy : Option String → Bool
  | none => true
  | some s => s = ""

/-- The hook's persistent data: the four useState cells (messages,
isConnected, isLoading, error), the matchId parameter of the current
render, and the five useRef cells (clientRef, reconnectAttemptRef,
shouldStopRef, hasConnectedRef, messageIdsRef).  STOMP clients are
named by numbers; `clientConnected` mirrors the connected flag of the
client currently stored in clientRef, and `nextClient` supplies a fresh
name when the effect constructs a new client. -/
structure HookState where
  messages : List ChatMessage
  isConnected : Bool
  isLoading : Bool
  error : Option String
  matchId : Option String
  clientRef : Option Nat
  clientConnected : Bool
  reconnectAttempt : Nat
  shouldStop : Bool
  hasConnected : Bool
  messageIds : List String
  nextClient : Nat
deriving DecidableEq, Repr

/-- Initial hook state: useState initializers of useChat.ts lines 27-30
(messages [], isConnected false, isLoading true, error null) and the
useRef initializers of lines 32-36. -/
def initState : HookState :=
  { messages := []
    isConnected := false
    isLoading := true
    error := none
    matchId := none
    clientRef := none
    clientConnected := false
    reconnectAttempt := 0
    shouldStop := false
    hasConnected := false
    messageIds := []
    nextClient := 0 }

/-- External side effects the hook requests from its environment. -/
inductive ChatAction where
  | fetchHistory (matchId : String)
  | activateClient (client : Nat)
  | deactivateClient (client : Nat)
  | subscribeTopic (topic : String)
  | publishFrame (destination : String) (request : ChatMessageRequest)
  | scheduleRetry (delayMs : Nat) (capturedClient : Nat)
deriving DecidableEq, Repr

/-- Events delivered to the hook: effect setup and cleanup, the STOMP
client callbacks, resolution of the history fetch, a live delivery on
the subscription, a caller's send, and a previously scheduled retry
timer firing (carrying the client the timer's closure captured). -/
inductive ChatEvent where
  | setup (matchId : Option String)
  | cleanup
  | wsConnect
  | wsDisconnect
  | stompError
  | wsClose
  | histOk (history : List ChatMessage)
  | histFail
  | live (message : ChatMessage)
  | send (content : String)
  | retryTimerFire (capturedClient : Nat)
deriving DecidableEq, Repr

/-- addMessage of useChat.ts lines 59-65: skip when the id is already
in messageIdsRef, otherwise record the id and append the message. -/
def addMessage (st : HookState) (message : ChatMessage) :
    HookState × List ChatAction :=
  if message.id ∈ st.messageIds then (st, [])
  else
    ({ st with
        messageIds := st.messageIds.insert message.id
        messages := st.messages ++ [message] }, [])

/-- Successful resolution of loadHistory, useChat.ts lines 45-49 and 54:
every history id is added to messageIdsRef, setMessages(history)
replaces the array, and the finally-block clears isLoading. -/
def loadHistoryOk (st : HookState) (history : List ChatMessage) :
    HookState × List ChatAction :=
  ({ st with
      messageIds := history.foldl (fun ids m => ids.insert m.id) st.messageIds
      messages := history
      isLoading := false }, [])

/-- Failed resolution of loadHistory, useChat.ts lines 50-55: the error
flag is set and isLoading cleared; messages is not touched and no new
fetch is issued. -/
def loadHistoryFail (st : HookState) : HookState × List ChatAction :=
  ({ st with
      error := some "Failed to load chat history"
      isLoading := false }, [])

/-- onConnect handler, useChat.ts lines 106-122: mark connected, clear
the error, reset the attempt counter, record that the handshake
succeeded, and subscribe to the match topic. -/
def onConnect (st : HookState) : HookState × List ChatAction :=
  ({ st with
      isConnected := true
      clientConnected := true
      error := none
      reconnectAttempt := 0
      hasConnected := true },
   [ChatAction.subscribeTopic ("/topic/match/" ++ st.matchId.getD "")])

/-- onDisconnect handler, useChat.ts lines 124-127. -/
def onDisconnect (st : HookState) : HookState × List ChatAction :=
  ({ st with isConnected := false }, [])

/-- onStompError handler, useChat.ts lines 129-137: any STOMP error
frame is treated as an authorization failure, so the stop flag is set
and the session-expired error surfaced. -/
def onStompError (st : HookState) : HookState × List ChatAction :=
  ({ st with
      shouldStop := true
      error := some "Session expired. Please refresh the page." }, [])

/-- onWebSocketClose handler, useChat.ts lines 143-177.  The close also
drops the client's connected flag.  Branches in source order: stopped →
nothing; handshake never succeeded → permanent failure without touching
the attempt counter; otherwise increment the counter, stop at 5, else
schedule one retry after min(base · 2^attempt, max), the timer closure
capturing the current client. -/
def onWebSocketClose (st : HookState) : HookState × List ChatAction :=
  let st1 := { st with isConnected := false, clientConnected := false }
  if st1.shouldStop then (st1, [])
  else if !st1.hasConnected then
    ({ st1 with
        shouldStop := true
        error := some "Session expired. Please refresh the page." }, [])
  else
    let st2 := { st1 with reconnectAttempt := st1.reconnectAttempt + 1 }
    if 5 ≤ st2.reconnectAttempt then
      ({ st2 with
          shouldStop := true
          error := some "Chat connection failed. Please refresh the page." }, [])
    else
      (st2,
       [ChatAction.scheduleRetry
          (min (RECONNECT_DELAY_BASE * 2 ^ st2.reconnectAttempt)
            MAX_RECONNECT_DELAY)
          (st2.clientRef.getD 0)])

/-- sendMessage, useChat.ts lines 68-83: a logged no-op unless
clientRef holds a connected client and matchId is truthy; otherwise
publish exactly one frame on /app/chat.send carrying the match id and
content.  It never touches messages and never throws. -/
def sendMessage (st : HookState) (content : String) :
    HookState × List ChatAction :=
  match st.clientRef with
  | none => (st, [])
  | some _ =>
    if !st.clientConnected || strFalsy st.matchId then (st, [])
    else
      (st,
       [ChatAction.publishFrame "/app/chat.send"
          { matchId := st.matchId.getD "", content := content }])

/-- Effect body, useChat.ts lines 86-182: falsy matchId only clears
isLoading; otherwise loadHistory starts (isLoading true, error null,
fetch issued), the stop and handshake flags are re-initialized, a fresh
client is constructed and stored in clientRef, and it is activated.
Note that neither messages nor reconnectAttemptRef is reset here. -/
def setupEffect (st : HookState) (matchId : Option String) :
    HookState × List ChatAction :=
  if strFalsy matchId then
    ({ st with matchId := matchId, isLoading := false }, [])
  else
    ({ st with
        matchId := matchId
        isLoading := true
        error := none
        shouldStop := false
        hasConnected := false
        clientRef := some st.nextClient
        clientConnected := false
        nextClient := st.nextClient + 1 },
     [ChatAction.fetchHistory (matchId.getD ""),
      ChatAction.activateClient st.nextClient])

/-- Effect cleanup, useChat.ts lines 185-191: deactivate the client
only if it is currently connected, null out clientRef, and clear the
seen-id set.  Pending retry timers are not cancelled, and messages,
error, and the attempt counter are untouched.  The closure only exists
for an activation that created a client, so a cleanup with clientRef
empty is a no-op. -/
def cleanupEffect (st : HookState) : HookState × List ChatAction :=
  match st.clientRef with
  | none => (st, [])
  | some c =>
    ({ st with clientRef := none, messageIds := [] },
     if st.clientConnected then [ChatAction.deactivateClient c] else [])

/-- Retry-timer callback, useChat.ts lines 171-175: when it fires, if
the stop flag is unset and clientRef is non-null, it calls activate on
the client its closure captured (which need not be the client currently
in clientRef). -/
def retryTimerCallback (st : HookState) (capturedClient : Nat) :
    HookState × List ChatAction :=
  if !st.shouldStop && st.clientRef.isSome then
    (st, [ChatAction.activateClient capturedClient])
  else (st, [])

/-- One serialized event-loop step of the hook. -/
def hookStep (st : HookState) : ChatEvent → HookState × List ChatAction
  | ChatEvent.setup matchId => setupEffect st matchId
  | ChatEvent.cleanup => cleanupEffect st
  | ChatEvent.wsConnect => onConnect st
  | ChatEvent.wsDisconnect => onDisconnect st
  | ChatEvent.stompError => onStompError st
  | ChatEvent.wsClose => onWebSocketClose st
  | ChatEvent.histOk history => loadHistoryOk st history
  | ChatEvent.histFail => loadHistoryFail st
  | ChatEvent.live message => addMessage st message
  | ChatEvent.send content => sendMessage st content
  | ChatEvent.retryTimerFire c => retryTimerCallback st c

/-- Run a sequence of events, accumulating all emitted actions. -/
def hookRun : HookState → List ChatEvent → HookState × List ChatAction
  | st, [] => (st, [])
  | st, e :: es =>
    let r1 := hookStep st e
    let r2 := hookRun r1.1 es
    (r2.1, r1.2 ++ r2.2)

theorem hookRun_nil (st : HookState) : hookRun st [] = (st, []) := rfl

theorem hookRun_cons (st : HookState) (e : ChatEvent) (es : List ChatEvent) :
    hookRun st (e :: es) =
      ((hookRun (hookStep st e).1 es).1,
       (hookStep st e).2 ++ (hookRun (hookStep st e).1 es).2) := rfl

/-- Sample message used in concrete scenarios: the message returned by
the history fetch. -/
def msgHist1 : ChatMessage :=
  { id := "1", matchId := "m1", senderId := "u1", senderName := "alice",
    content := "hi", createdAt := "t1" }

/-- Sample message used in concrete scenarios: a live delivery whose id
does not occur in the history batch. -/
def msgLive2 : ChatMessage :=
  { id := "2", matchId := "m1", senderId := "u2", senderName := "bob",
    content := "yo", createdAt := "t2" }

/-- State of a freshly activated hook: initState after the effect ran
for match id m1 (history fetch in flight, client 0 activating). -/
def freshChatState : HookState :=
  (hookStep initState (ChatEvent.setup (some "m1"))).1

/-- State of an activated hook whose STOMP handshake has succeeded. -/
def activeState : HookState :=
  (hookRun initState [ChatEvent.setup (some "m1"), ChatEvent.wsConnect]).1

/-- Recognizer for the effect-setup event. -/
def isSetup : ChatEvent → Bool
  | ChatEvent.setup _ => true
  | _ => false

/-- Recognizer for a schedule-retry action. -/
def isScheduleRetry : ChatAction → Bool
  | ChatAction.scheduleRetry _ _ => true
  | _ => false

/-- Recognizer for a history-fetch action. -/
def isFetchHistory : ChatAction → Bool
  | ChatAction.fetchHistory _ => true
  | _ => false

/-- Delay and captured client of a schedule-retry action. -/
def retryCapture : ChatAction → Option (Nat × Nat)
  | ChatAction.scheduleRetry d c => some (d, c)
  | _ => none

/-- Events that can occur inside a single activation (everything except
effect setup and cleanup), with well-formed history batches: a history
resolution must carry pairwise-distinct message ids. -/
def eventOk : ChatEvent → Bool
  | ChatEvent.setup _ => false
  | ChatEvent.cleanup => false
  | ChatEvent.histOk history => decide ((history.map ChatMessage.id).Nodup)
  | _ => true

/-- Deduplication invariant: the visible message sequence carries
pairwise-distinct ids, and every visible id is registered in the
seen-id set. -/
@[reducible] def DedupInv (st : HookState) : Prop :=
  (st.messages.map ChatMessage.id).Nodup ∧
  ∀ i ∈ st.messages.map ChatMessage.id, i ∈ st.messageIds

theorem mem_foldl_insert_of_mem (history : List ChatMessage)
    (s : List String) (j : String) (hj : j ∈ s) :
    j ∈ history.foldl (fun ids m => ids.insert m.id) s := by
  induction history generalizing s with
  | nil => exact hj
  | cons m t ih => exact ih _ (List.mem_insert_of_mem hj)

theorem mem_foldl_insert_self (history : List ChatMessage)
    (s : List String) (m : ChatMessage) (hm : m ∈ history) :
    m.id ∈ history.foldl (fun ids x => ids.insert x.id) s := by
  induction history generalizing s with
  | nil => cases hm
  | cons x t ih =>
    cases hm with
    | head => exact mem_foldl_insert_of_mem t _ _ (List.mem_insert_self _ _)
    | tail _ hm2 => exact ih _ hm2

theorem dedupInv_step (st : HookState) (e : ChatEvent)
    (hok : eventOk e = true) (hinv : DedupInv st) :
    DedupInv (hookStep st e).1 := by
  obtain ⟨hnd, hsub⟩ := hinv
  cases e with
  | setup m => simp [eventOk] at hok
  | cleanup => simp [eventOk] at hok
  | live m =>
    by_cases hc : m.id ∈ st.messageIds
    · simpa [hookStep, addMessage, hc] using ⟨hnd, hsub⟩
    · refine ⟨?_, ?_⟩
      · simp only [hookStep, addMessage, if_neg hc, List.map_append]
        refine List.Nodup.append hnd (List.nodup_singleton _) ?_
        intro i hi hi2
        simp only [List.map_cons, List.map_nil, List.mem_singleton] at hi2
        exact hc (hi2 ▸ hsub i hi)
      · intro i hi
        simp only [hookStep, addMessage, if_neg hc, List.map_append] at hi ⊢
        rcases List.mem_append.1 hi with h1 | h2
        · exact List.mem_insert_of_mem (hsub i h1)
        · simp only [List.map_cons, List.map_nil, List.mem_singleton] at h2
          exact h2 ▸ List.mem_insert_self _ _
  | histOk history =>
    simp only [eventOk, decide_eq_true_eq] at hok
    refine ⟨by simpa [hookStep, loadHistoryOk] using hok, ?_⟩
    intro i hi
    simp only [hookStep, loadHistoryOk] at hi ⊢
    obtain ⟨m, hm, rfl⟩ := List.mem_map.1 hi
    exact mem_foldl_insert_self _ _ _ hm
  | wsConnect => exact ⟨hnd, hsub⟩
  | wsDisconnect => exact ⟨hnd, hsub⟩
  | stompError => exact ⟨hnd, hsub⟩
  | histFail => exact ⟨hnd, hsub⟩
  | wsClose =>
    have hmsg : (hookStep st ChatEvent.wsClose).1.messages = st.messages ∧
        (hookStep st ChatEvent.wsClose).1.messageIds = st.messageIds := by
      simp only [hookStep, onWebSocketClose]
      split
      · exact ⟨rfl, rfl⟩
      · split
        · exact ⟨rfl, rfl⟩
        · split
          · exact ⟨rfl, rfl⟩
          · exact ⟨rfl, rfl⟩
    simp only [DedupInv]
    rw [hmsg.1, hmsg.2]
    exact ⟨hnd, hsub⟩
  | send content =>
    have hmsg : (hookStep st (ChatEvent.send content)).1 = st := by
      simp only [hookStep, sendMessage]
      split
      · rfl
      · split
        · rfl
        · rfl
    rw [hmsg]
    exact ⟨hnd, hsub⟩
  | retryTimerFire c =>
    have hmsg : (hookStep st (ChatEvent.retryTimerFire c)).1 = st := by
      simp only [hookStep, retryTimerCallback]
      split
      · rfl
      · rfl
    rw [hmsg]
    exact ⟨hnd, hsub⟩

theorem dedupInv_run (st : HookState) (es : List ChatEvent)
    (hok : es.all eventOk = true) (hinv : DedupInv st) :
    DedupInv (hookRun st es).1 := by
  induction es generalizing st with
  | nil => exact hinv
  | cons e t ih =>
    simp only [List.all_cons, Bool.and_eq_true] at hok
    rw [hookRun_cons]
    exact ih _ hok.2 (dedupInv_step st e hok.1 hinv)

theorem stopped_step (st : HookState) (e : ChatEvent)
    (hstop : st.shouldStop = true) (he : isSetup e = false) :
    (hookStep st e).1.shouldStop = true ∧
    (hookStep st e).2.all (fun a => !isScheduleRetry a) = true := by
  cases e with
  | setup m => simp [isSetup] at he
  | cleanup =>
    simp only [hookStep, cleanupEffect]
    split
    · exact ⟨hstop, rfl⟩
    · refine ⟨hstop, ?_⟩
      split <;> simp [isScheduleRetry]
  | wsConnect => simpa [hookStep, onConnect, isScheduleRetry] using hstop
  | wsDisconnect => exact ⟨hstop, rfl⟩
  | stompError => exact ⟨rfl, rfl⟩
  | wsClose => simp [hookStep, onWebSocketClose, hstop]
  | histOk history => exact ⟨hstop, rfl⟩
  | histFail => exact ⟨hstop, rfl⟩
  | live m =>
    simp only [hookStep, addMessage]
    split <;> exact ⟨hstop, rfl⟩
  | send content =>
    simp only [hookStep, sendMessage]
    split
    · exact ⟨hstop, rfl⟩
    · split
      · exact ⟨hstop, rfl⟩
      · exact ⟨hstop, by simp [isScheduleRetry]⟩
  | retryTimerFire c =>
    simp [hookStep, retryTimerCallback, hstop]

theorem stopped_run (st : HookState) (es : List ChatEvent)
    (hstop : st.shouldStop = true)
    (hes : es.all (fun e => !isSetup e) = true) :
    (hookRun st es).1.shouldStop = true ∧
    (hookRun st es).2.all (fun a => !isScheduleRetry a) = true := by
  induction es generalizing st with
  | nil => exact ⟨hstop, rfl⟩
  | cons e t ih =>
    simp only [List.all_cons, Bool.and_eq_true, Bool.not_eq_true'] at hes
    obtain ⟨h1, h2⟩ := stopped_step st e hstop hes.1
    obtain ⟨h3, h4⟩ := ih _ h1 hes.2
    rw [hookRun_cons]
    refine ⟨h3, ?_⟩
    rw [List.all_append, h2, h4]
    rfl

theorem no_fetch_step (st : HookState) (e : ChatEvent)
    (he : isSetup e = false) :
    (hookStep st e).2.all (fun a => !isFetchHistory a) = true := by
  cases e with
  | setup m => simp [isSetup] at he
  | cleanup =>
    simp only [hookStep, cleanupEffect]
    split
    · rfl
    · split <;> simp [isFetchHistory]
  | wsConnect => simp [hookStep, onConnect, isFetchHistory]
  | wsDisconnect => rfl
  | stompError => rfl
  | wsClose =>
    simp only [hookStep, onWebSocketClose]
    split
    · rfl
    · split
      · rfl
      · split
        · rfl
        · simp [isFetchHistory]
  | histOk history => rfl
  | histFail => rfl
  | live m =>
    simp only [hookStep, addMessage]
    split <;> rfl
  | send content =>
    simp only [hookStep, sendMessage]
    split
    · rfl
    · split
      · rfl
      · simp [isFetchHistory]
  | retryTimerFire c =>
    simp only [hookStep, retryTimerCallback]
    split
    · simp [isFetchHistory]
    · rfl

theorem no_fetch_run (st : HookState) (es : List ChatEvent)
    (hes : es.all (fun e => !isSetup e) = true) :
    (hookRun st es).2.all (fun a => !isFetchHistory a) = true := by
  induction es generalizing st with
  | nil => rfl
  | cons e t ih =>
    simp only [List.all_cons, Bool.and_eq_true, Bool.not_eq_true'] at hes
    rw [hookRun_cons]
    rw [List.all_append, no_fetch_step st e hes.1, ih _ hes.2]
    rfl

/-- C1: within a single activation, for every interleaving of
history-load completions (each batch carrying pairwise-distinct
message ids) and live deliveries, starting from any state satisfying
the deduplication invariant (in particular a freshly activated hook,
whose visible sequence is empty), the visible message sequence
contains each message id at most once; moreover a live delivery whose
id is already in the seen-message set is silently dropped: it leaves
the whole hook state unchanged and performs no action. -/
theorem C1_no_duplicate_ids :
    (∀ (st : HookState) (es : List ChatEvent), DedupInv st →
      es.all eventOk = true →
      ((hookRun st es).1.messages.map ChatMessage.id).Nodup) ∧
    (∀ (st : HookState) (m : ChatMessage), m.id ∈ st.messageIds →
      hookStep st (ChatEvent.live m) = (st, [])) := by
  constructor
  · intro st es hinv hok
    exact (dedupInv_run st es hok hinv).1
  · intro st m hm
    simp [hookStep, addMessage, hm]

theorem C1_no_duplicate_ids_witness :
    (((hookRun freshChatState
        [ChatEvent.live msgLive2, ChatEvent.histOk [msgHist1, msgLive2],
         ChatEvent.live msgLive2]).1.messages.map ChatMessage.id).Nodup) ∧
    hookStep (hookRun freshChatState [ChatEvent.live msgLive2]).1
        (ChatEvent.live msgLive2) =
      ((hookRun freshChatState [ChatEvent.live msgLive2]).1, []) :=
  ⟨C1_no_duplicate_ids.1 freshChatState _ (by decide) (by decide),
   C1_no_duplicate_ids.2 _ msgLive2 (by decide)⟩

/-- C2 counterexample: the claim asserts that each of the first five
consecutive retryable failures schedules a retry, the fifth after
30000 ms.  In the code the fifth consecutive failure schedules no
retry at all: running five consecutive closes from a connected session
produces exactly four schedule-retry actions (2000, 4000, 8000,
16000 ms, all capturing client 0), and the fifth close emits no action. -/
theorem C2_backoff_counterexample :
    (hookRun activeState (List.replicate 5 ChatEvent.wsClose)).2.filterMap
        retryCapture = [(2000, 0), (4000, 0), (8000, 0), (16000, 0)] ∧
    (hookStep (hookRun activeState (List.replicate 4 ChatEvent.wsClose)).1
        ChatEvent.wsClose).2 = [] := by
  exact ⟨rfl, rfl⟩

/-- C2 (amended): for N from 1 to 4, the Nth consecutive retryable
failure (transport close with the handshake flag set, the stop flag
unset, and N-1 failures already counted) schedules exactly one retry
after min(1000 * 2^N, 30000) ms, which for these N equals 1000 * 2^N,
i.e. failures 1..4 schedule delays 2000, 4000, 8000, 16000 ms; the 5th
consecutive failure schedules no retry and instead enters the
permanent-failure condition. -/
theorem C2_backoff_delays (st : HookState) (N : Nat) (c : Nat)
    (h1 : 1 ≤ N) (h2 : N ≤ 4)
    (hstop : st.shouldStop = false) (hconn : st.hasConnected = true)
    (hatt : st.reconnectAttempt + 1 = N) (hc : st.clientRef = some c) :
    (hookStep st ChatEvent.wsClose).2 =
      [ChatAction.scheduleRetry (min (1000 * 2 ^ N) 30000) c] ∧
    min (1000 * 2 ^ N) 30000 = 1000 * 2 ^ N := by
  have hle : 1000 * 2 ^ N ≤ 30000 := by
    have hp : 2 ^ N ≤ 2 ^ 4 := Nat.pow_le_pow_right (by norm_num) h2
    have h16 : (2 : Nat) ^ 4 = 16 := by norm_num
    omega
  have hlt : ¬ (5 ≤ N) := by omega
  constructor
  · simp [hookStep, onWebSocketClose, hstop, hconn, hlt, hc, hatt,
      RECONNECT_DELAY_BASE, MAX_RECONNECT_DELAY]
  · omega

theorem C2_backoff_delays_witness :
    (hookStep (hookRun activeState [ChatEvent.wsClose]).1
        ChatEvent.wsClose).2 =
      [ChatAction.scheduleRetry (min (1000 * 2 ^ 2) 30000) 0] ∧
    min (1000 * 2 ^ 2) 30000 = 1000 * 2 ^ 2 :=
  C2_backoff_delays _ 2 0 (by decide) (by decide) (by decide) (by decide)
    (by decide) (by decide)

/-- C3: the 5th consecutive retryable failure with no intervening
successful connection (transport close with the handshake flag set,
the stop flag unset, and four failures already counted) sets the stop
flag, surfaces the connection-failed error, schedules nothing, and no
retry is scheduled by any further events of the activation (any event
sequence not containing a new effect setup). -/
theorem C3_permanent_after_fifth (st : HookState) (es : List ChatEvent)
    (hstop : st.shouldStop = false) (hconn : st.hasConnected = true)
    (hatt : st.reconnectAttempt = 4)
    (hes : es.all (fun e => !isSetup e) = true) :
    (hookStep st ChatEvent.wsClose).1.shouldStop = true ∧
    (hookStep st ChatEvent.wsClose).1.error =
      some "Chat connection failed. Please refresh the page." ∧
    (hookStep st ChatEvent.wsClose).2 = [] ∧
    (hookRun (hookStep st ChatEvent.wsClose).1 es).2.all
      (fun a => !isScheduleRetry a) = true := by
  have hstep : (hookStep st ChatEvent.wsClose).1.shouldStop = true ∧
      (hookStep st ChatEvent.wsClose).1.error =
        some "Chat connection failed. Please refresh the page." ∧
      (hookStep st ChatEvent.wsClose).2 = [] := by
    simp [hookStep, onWebSocketClose, hstop, hconn, hatt]
  exact ⟨hstep.1, hstep.2.1, hstep.2.2,
    (stopped_run _ es hstep.1 hes).2⟩

theorem C3_permanent_after_fifth_witness :
    (hookStep (hookRun activeState (List.replicate 4 ChatEvent.wsClose)).1
        ChatEvent.wsClose).1.shouldStop = true ∧
    (hookStep (hookRun activeState (List.replicate 4 ChatEvent.wsClose)).1
        ChatEvent.wsClose).1.error =
      some "Chat connection failed. Please refresh the page." ∧
    (hookStep (hookRun activeState (List.replicate 4 ChatEvent.wsClose)).1
        ChatEvent.wsClose).2 = [] ∧
    (hookRun (hookStep
        (hookRun activeState (List.replicate 4 ChatEvent.wsClose)).1
        ChatEvent.wsClose).1
      [ChatEvent.wsClose, ChatEvent.retryTimerFire 0]).2.all
      (fun a => !isScheduleRetry a) = true :=
  C3_permanent_after_fifth _ [ChatEvent.wsClose, ChatEvent.retryTimerFire 0]
    (by decide) (by decide) (by decide) (by decide)

/-- C4: a STOMP error frame (the handshake rejected for an
authorization reason) sets the stop flag and surfaces the
session-expired error regardless of the remaining attempt budget (the
state, and with it the attempt counter, is arbitrary), performs no
action, and no retry is scheduled by any further events of the
activation (any event sequence not containing a new effect setup). -/
theorem C4_auth_rejection_permanent (st : HookState) (es : List ChatEvent)
    (hes : es.all (fun e => !isSetup e) = true) :
    (hookStep st ChatEvent.stompError).1.shouldStop = true ∧
    (hookStep st ChatEvent.stompError).1.error =
      some "Session expired. Please refresh the page." ∧
    (hookStep st ChatEvent.stompError).2 = [] ∧
    (hookRun (hookStep st ChatEvent.stompError).1 es).2.all
      (fun a => !isScheduleRetry a) = true := by
  exact ⟨rfl, rfl, rfl, (stopped_run _ es rfl hes).2⟩

theorem C4_auth_rejection_permanent_witness :
    (hookStep activeState ChatEvent.stompError).1.shouldStop = true ∧
    (hookStep activeState ChatEvent.stompError).1.error =
      some "Session expired. Please refresh the page." ∧
    (hookStep activeState ChatEvent.stompError).2 = [] ∧
    (hookRun (hookStep activeState ChatEvent.stompError).1
      [ChatEvent.wsClose, ChatEvent.wsClose,
       ChatEvent.retryTimerFire 0]).2.all
      (fun a => !isScheduleRetry a) = true :=
  C4_auth_rejection_permanent activeState
    [ChatEvent.wsClose, ChatEvent.wsClose, ChatEvent.retryTimerFire 0]
    (by decide)

/-- C5: when the transport closes before the STOMP handshake has ever
succeeded in this activation (handshake flag still false, stop flag
unset), the state immediately becomes permanent failure with the
session-expired error surfaced, the reconnection attempt counter is
not incremented, and no retry timer is scheduled. -/
theorem C5_close_during_connecting (st : HookState)
    (hstop : st.shouldStop = false) (hconn : st.hasConnected = false) :
    (hookStep st ChatEvent.wsClose).1.shouldStop = true ∧
    (hookStep st ChatEvent.wsClose).1.error =
      some "Session expired. Please refresh the page." ∧
    (hookStep st ChatEvent.wsClose).1.reconnectAttempt =
      st.reconnectAttempt ∧
    (hookStep st ChatEvent.wsClose).2 = [] := by
  simp [hookStep, onWebSocketClose, hstop, hconn]

theorem C5_close_during_connecting_witness :
    (hookStep freshChatState ChatEvent.wsClose).1.shouldStop = true ∧
    (hookStep freshChatState ChatEvent.wsClose).1.error =
      some "Session expired. Please refresh the page." ∧
    (hookStep freshChatState ChatEvent.wsClose).1.reconnectAttempt =
      freshChatState.reconnectAttempt ∧
    (hookStep freshChatState ChatEvent.wsClose).2 = [] :=
  C5_close_during_connecting freshChatState (by decide) (by decide)

/-- C6 counterexample: the claim asserts that live messages appended
before the history resolved keep their positions in the visible
sequence.  In the code the history resolution replaces the sequence
wholesale: after a live delivery of a message with id 2 (absent from
the history batch) followed by the history resolving to the single
message with id 1, the visible sequence is exactly the history batch
and the previously appended live message is gone from it. -/
theorem C6_first_arrival_counterexample :
    (hookRun freshChatState
        [ChatEvent.live msgLive2,
         ChatEvent.histOk [msgHist1]]).1.messages = [msgHist1] ∧
    msgLive2 ∉ (hookRun freshChatState
        [ChatEvent.live msgLive2,
         ChatEvent.histOk [msgHist1]]).1.messages := by
  exact ⟨rfl, by decide⟩

/-- C6 (amended): when the history fetch resolves successfully, every
returned message id is registered in the seen-message set and the
visible message sequence is replaced wholesale by the history batch in
its returned order; live messages appended before the history resolved
are removed from the visible sequence, but their ids remain registered
in the seen-message set, so a later duplicate arrival of such an id is
still silently dropped. -/
theorem C6_history_replaces (st : HookState) (history : List ChatMessage) :
    (hookStep st (ChatEvent.histOk history)).1.messages = history ∧
    (∀ m ∈ history,
      m.id ∈ (hookStep st (ChatEvent.histOk history)).1.messageIds) ∧
    (∀ i ∈ st.messageIds,
      i ∈ (hookStep st (ChatEvent.histOk history)).1.messageIds) ∧
    (∀ m : ChatMessage,
      m.id ∈ (hookStep st (ChatEvent.histOk history)).1.messageIds →
      hookStep (hookStep st (ChatEvent.histOk history)).1
          (ChatEvent.live m) =
        ((hookStep st (ChatEvent.histOk history)).1, [])) := by
  refine ⟨rfl, ?_, ?_, ?_⟩
  · intro m hm
    exact mem_foldl_insert_self _ _ _ hm
  · intro i hi
    exact mem_foldl_insert_of_mem _ _ _ hi
  · intro m hm
    simp only [hookStep] at hm
    simp [hookStep, addMessage, hm]

theorem C6_history_replaces_witness :
    (hookStep (hookRun freshChatState [ChatEvent.live msgLive2]).1
        (ChatEvent.histOk [msgHist1])).1.messages = [msgHist1] ∧
    msgHist1.id ∈ (hookStep
        (hookRun freshChatState [ChatEvent.live msgLive2]).1
        (ChatEvent.histOk [msgHist1])).1.messageIds ∧
    msgLive2.id ∈ (hookStep
        (hookRun freshChatState [ChatEvent.live msgLive2]).1
        (ChatEvent.histOk [msgHist1])).1.messageIds ∧
    hookStep (hookStep (hookRun freshChatState [ChatEvent.live msgLive2]).1
        (ChatEvent.histOk [msgHist1])).1 (ChatEvent.live msgLive2) =
      ((hookStep (hookRun freshChatState [ChatEvent.live msgLive2]).1
        (ChatEvent.histOk [msgHist1])).1, []) :=
  ⟨(C6_history_replaces _ [msgHist1]).1,
   (C6_history_replaces _ [msgHist1]).2.1 msgHist1 (by decide),
   (C6_history_replaces _ [msgHist1]).2.2.1 msgLive2.id (by decide),
   (C6_history_replaces _ [msgHist1]).2.2.2 msgLive2 (by decide)⟩

/-- Events of the C7 counterexample: conversation A is activated,
connects, receives one live message, suffers one retryable close, and
is then deactivated; conversation B is activated next. -/
def c7Events : List ChatEvent :=
  [ChatEvent.setup (some "A"), ChatEvent.wsConnect,
   ChatEvent.live msgHist1, ChatEvent.wsClose, ChatEvent.cleanup,
   ChatEvent.setup (some "B")]

/-- C7 counterexample: the claim asserts that after deactivating
conversation A and activating conversation B, the visible message
sequence contains none of A's messages and the reconnection attempt
counter starts fresh.  In the code, right after B's activation the
sequence still holds A's message and the attempt counter still holds
A's count of 1: neither is reset by the cleanup or by the new setup. -/
theorem C7_reactivation_counterexample :
    (hookRun initState c7Events).1.matchId = some "B" ∧
    (hookRun initState c7Events).1.messages = [msgHist1] ∧
    (hookRun initState c7Events).1.reconnectAttempt = 1 := by
  exact ⟨rfl, rfl, rfl⟩

/-- C7 (amended): deactivating a conversation whose activation created
a client and then activating a new non-empty conversation id clears
the seen-message set and re-initializes the stop and handshake flags,
but the visible message sequence and the reconnection attempt counter
carry over from the previous conversation; the previous messages
disappear only when the new conversation's history fetch resolves
successfully (which replaces the sequence), and the attempt counter is
reset only on the next successful connect. -/
theorem C7_reactivation_state (st : HookState) (mid : String) (c : Nat)
    (history : List ChatMessage)
    (hc : st.clientRef = some c) (hmid : ¬ mid = "") :
    (hookRun st [ChatEvent.cleanup,
        ChatEvent.setup (some mid)]).1.messageIds = [] ∧
    (hookRun st [ChatEvent.cleanup,
        ChatEvent.setup (some mid)]).1.shouldStop = false ∧
    (hookRun st [ChatEvent.cleanup,
        ChatEvent.setup (some mid)]).1.hasConnected = false ∧
    (hookRun st [ChatEvent.cleanup,
        ChatEvent.setup (some mid)]).1.messages = st.messages ∧
    (hookRun st [ChatEvent.cleanup,
        ChatEvent.setup (some mid)]).1.reconnectAttempt =
      st.reconnectAttempt ∧
    (hookRun st [ChatEvent.cleanup, ChatEvent.setup (some mid),
        ChatEvent.histOk history]).1.messages = history ∧
    (hookRun st [ChatEvent.cleanup, ChatEvent.setup (some mid),
        ChatEvent.wsConnect]).1.reconnectAttempt = 0 := by
  simp [hookRun_cons, hookRun_nil, hookStep, cleanupEffect, setupEffect,
    loadHistoryOk, onConnect, strFalsy, hc, hmid]

theorem C7_reactivation_state_witness :
    (hookRun (hookRun initState [ChatEvent.setup (some "A"),
        ChatEvent.wsConnect, ChatEvent.live msgHist1,
        ChatEvent.wsClose]).1
      [ChatEvent.cleanup, ChatEvent.setup (some "B")]).1.messageIds = [] ∧
    (hookRun (hookRun initState [ChatEvent.setup (some "A"),
        ChatEvent.wsConnect, ChatEvent.live msgHist1,
        ChatEvent.wsClose]).1
      [ChatEvent.cleanup, ChatEvent.setup (some "B")]).1.shouldStop =
      false ∧
    (hookRun (hookRun initState [ChatEvent.setup (some "A"),
        ChatEvent.wsConnect, ChatEvent.live msgHist1,
        ChatEvent.wsClose]).1
      [ChatEvent.cleanup, ChatEvent.setup (some "B")]).1.hasConnected =
      false ∧
    (hookRun (hookRun initState [ChatEvent.setup (some "A"),
        ChatEvent.wsConnect, ChatEvent.live msgHist1,
        ChatEvent.wsClose]).1
      [ChatEvent.cleanup, ChatEvent.setup (some "B")]).1.messages =
      (hookRun initState [ChatEvent.setup (some "A"),
        ChatEvent.wsConnect, ChatEvent.live msgHist1,
        ChatEvent.wsClose]).1.messages ∧
    (hookRun (hookRun initState [ChatEvent.setup (some "A"),
        ChatEvent.wsConnect, ChatEvent.live msgHist1,
        ChatEvent.wsClose]).1
      [ChatEvent.cleanup,
        ChatEvent.setup (some "B")]).1.reconnectAttempt =
      (hookRun initState [ChatEvent.setup (some "A"),
        ChatEvent.wsConnect, ChatEvent.live msgHist1,
        ChatEvent.wsClose]).1.reconnectAttempt ∧
    (hookRun (hookRun initState [ChatEvent.setup (some "A"),
        ChatEvent.wsConnect, ChatEvent.live msgHist1,
        ChatEvent.wsClose]).1
      [ChatEvent.cleanup, ChatEvent.setup (some "B"),
        ChatEvent.histOk [msgLive2]]).1.messages = [msgLive2] ∧
    (hookRun (hookRun initState [ChatEvent.setup (some "A"),
        ChatEvent.wsConnect, ChatEvent.live msgHist1,
        ChatEvent.wsClose]).1
      [ChatEvent.cleanup, ChatEvent.setup (some "B"),
        ChatEvent.wsConnect]).1.reconnectAttempt = 0 :=
  C7_reactivation_state _ "B" 0 [msgLive2] (by decide) (by decide)

/-- State of the C8 counterexample: conversation A connects, suffers a
retryable close (which schedules a retry whose closure captured
client 0), is deactivated, and conversation B is then activated
(creating client 1). -/
def c8StaleState : HookState :=
  (hookRun initState
    [ChatEvent.setup (some "A"), ChatEvent.wsConnect, ChatEvent.wsClose,
     ChatEvent.cleanup, ChatEvent.setup (some "B")]).1

/-- C8 counterexample: the claim asserts that deactivation cancels any
pending retry timer and actively closes the transport if it is
currently connecting or active, so that no previously scheduled retry
can reopen the old connection.  In the code, first, deactivating a
hook whose transport is still connecting (activated but not yet
connected) emits no close action at all; second, the retry timer is
never cancelled: after A's close scheduled a retry capturing client 0
and A was deactivated, activating conversation B leaves the stale
timer armed, and when it fires it re-activates A's old client 0. -/
theorem C8_deactivation_counterexample :
    (hookStep freshChatState ChatEvent.cleanup).2 = [] ∧
    (hookRun initState
        [ChatEvent.setup (some "A"), ChatEvent.wsConnect,
         ChatEvent.wsClose]).2.filterMap retryCapture = [(2000, 0)] ∧
    (hookStep c8StaleState (ChatEvent.retryTimerFire 0)).2 =
      [ChatAction.activateClient 0] := by
  exact ⟨rfl, rfl, rfl⟩

/-- C8 (amended): deactivation nulls the client reference, clears the
seen-message set, and actively closes the transport only when it is
currently connected (a transport still mid-connect is not closed); it
does not cancel a pending retry timer, but a retry timer that fires
while the client reference is null (deactivated, no new activation
begun) performs nothing, as does one that fires with the stop flag
set.  Only if a new activation has begun before the timer fires does
the stale timer re-activate the old client. -/
theorem C8_deactivation_behavior (st : HookState) (c k : Nat) :
    (st.clientRef = some c → st.clientConnected = true →
      (hookStep st ChatEvent.cleanup).2 =
        [ChatAction.deactivateClient c] ∧
      (hookStep st ChatEvent.cleanup).1.clientRef = none ∧
      (hookStep st ChatEvent.cleanup).1.messageIds = []) ∧
    (st.clientRef = none →
      hookStep st (ChatEvent.retryTimerFire k) = (st, [])) ∧
    (st.shouldStop = true →
      hookStep st (ChatEvent.retryTimerFire k) = (st, [])) := by
  refine ⟨fun hc hcc => ?_, fun hc => ?_, fun hs => ?_⟩
  · simp [hookStep, cleanupEffect, hc, hcc]
  · simp [hookStep, retryTimerCallback, hc]
  · simp [hookStep, retryTimerCallback, hs]

theorem C8_deactivation_behavior_witness :
    ((hookStep activeState ChatEvent.cleanup).2 =
        [ChatAction.deactivateClient 0] ∧
      (hookStep activeState ChatEvent.cleanup).1.clientRef = none ∧
      (hookStep activeState ChatEvent.cleanup).1.messageIds = []) ∧
    hookStep (hookStep activeState ChatEvent.cleanup).1
        (ChatEvent.retryTimerFire 0) =
      ((hookStep activeState ChatEvent.cleanup).1, []) ∧
    hookStep (hookStep activeState ChatEvent.stompError).1
        (ChatEvent.retryTimerFire 0) =
      ((hookStep activeState ChatEvent.stompError).1, []) :=
  ⟨(C8_deactivation_behavior activeState 0 0).1 (by decide) (by decide),
   (C8_deactivation_behavior
     (hookStep activeState ChatEvent.cleanup).1 0 0).2.1 (by decide),
   (C8_deactivation_behavior
     (hookStep activeState ChatEvent.stompError).1 0 0).2.2 (by decide)⟩

/-- C9: sending never modifies the hook state (in particular the
visible message sequence gains no optimistic local copy) and never
throws (the step is total); while the client is not connected or the
match id is null it publishes no frame; while the client held in the
client reference is connected and the match id is a non-empty string
(whenever the session is connected in the program, the client
reference is non-null and the match id non-empty, since the effect
creates a client only for a truthy match id), it publishes exactly one
frame on /app/chat.send carrying the match id and the content. -/
theorem C9_send_noop_or_publish (st : HookState) (content : String) :
    (hookStep st (ChatEvent.send content)).1 = st ∧
    ((st.clientConnected = false ∨ st.matchId = none) →
      (hookStep st (ChatEvent.send content)).2 = []) ∧
    (∀ (c : Nat) (mid : String), st.clientRef = some c →
      st.clientConnected = true → st.matchId = some mid → ¬ mid = "" →
      (hookStep st (ChatEvent.send content)).2 =
        [ChatAction.publishFrame "/app/chat.send"
          { matchId := mid, content := content }]) := by
  refine ⟨?_, ?_, ?_⟩
  · simp only [hookStep, sendMessage]
    split
    · rfl
    · split <;> rfl
  · intro h
    simp only [hookStep, sendMessage]
    split
    · rfl
    · rcases h with h | h
      · simp [h]
      · simp [h, strFalsy]
  · intro c mid hc hcc hmid hne
    simp [hookStep, sendMessage, hc, hcc, hmid, strFalsy, hne]

theorem C9_send_noop_or_publish_witness :
    (hookStep activeState (ChatEvent.send "hello")).1 = activeState ∧
    (hookStep initState (ChatEvent.send "hello")).2 = [] ∧
    (hookStep activeState (ChatEvent.send "hello")).2 =
      [ChatAction.publishFrame "/app/chat.send"
        { matchId := "m1", content := "hello" }] :=
  ⟨(C9_send_noop_or_publish activeState "hello").1,
   (C9_send_noop_or_publish initState "hello").2.1 (Or.inl (by decide)),
   (C9_send_noop_or_publish activeState "hello").2.2 0 "m1" (by decide)
     (by decide) (by decide) (by decide)⟩

/-- C10: when the history fetch fails in an activation whose visible
message sequence started empty, the sequence stays empty, the
fetch-failed error is surfaced, the loading flag is cleared, no action
is emitted (in particular the fetch is not retried: no further event
of the activation, i.e. no event sequence without a new effect setup,
ever emits a history fetch), and a live message whose id is not yet
seen still appends normally afterwards. -/
theorem C10_history_failure (st : HookState) (m : ChatMessage)
    (es : List ChatEvent)
    (hmsgs : st.messages = [])
    (hes : es.all (fun e => !isSetup e) = true) :
    (hookStep st ChatEvent.histFail).1.messages = [] ∧
    (hookStep st ChatEvent.histFail).1.error =
      some "Failed to load chat history" ∧
    (hookStep st ChatEvent.histFail).1.isLoading = false ∧
    (hookStep st ChatEvent.histFail).2 = [] ∧
    (hookRun (hookStep st ChatEvent.histFail).1 es).2.all
      (fun a => !isFetchHistory a) = true ∧
    (¬ m.id ∈ (hookStep st ChatEvent.histFail).1.messageIds →
      (hookStep (hookStep st ChatEvent.histFail).1
        (ChatEvent.live m)).1.messages = [m]) := by
  refine ⟨hmsgs, rfl, rfl, rfl, no_fetch_run _ es hes, fun hm => ?_⟩
  have hm2 : ¬ m.id ∈ st.messageIds := hm
  simp [hookStep, addMessage, loadHistoryFail, hm2, hmsgs]

theorem C10_history_failure_witness :
    (hookStep freshChatState ChatEvent.histFail).1.messages = [] ∧
    (hookStep freshChatState ChatEvent.histFail).1.error =
      some "Failed to load chat history" ∧
    (hookStep freshChatState ChatEvent.histFail).1.isLoading = false ∧
    (hookStep freshChatState ChatEvent.histFail).2 = [] ∧
    (hookRun (hookStep freshChatState ChatEvent.histFail).1
      [ChatEvent.wsConnect, ChatEvent.live msgLive2]).2.all
      (fun a => !isFetchHistory a) = true ∧
    (¬ msgLive2.id ∈
        (hookStep freshChatState ChatEvent.histFail).1.messageIds →
      (hookStep (hookStep freshChatState ChatEvent.histFail).1
        (ChatEvent.live msgLive2)).1.messages = [msgLive2]) :=
  C10_history_failure freshChatState msgLive2
    [ChatEvent.wsConnect, ChatEvent.live msgLive2] (by decide) (by decide)

end SprintMate
